import Mathlib

/-!
Verification of the risk-based access-control core of the Prototipo_TFG_Passkeys
backend.  The Lean definitions below are a shallow embedding of the Python
sources:

* `backend/risk/policies.py`       — `PolicyEngine.evaluate_policies`, `_policy_matches`
* `backend/risk/risk_engine.py`    — `RiskEngine.evaluate_risk` and the factor evaluators
* `backend/session_reevaluation.py`— anomaly detectors, `determine_action`,
                                     `reevaluate_session`
* `backend/threat_intelligence.py` — the TTL reputation cache and `check_threat`

External collaborators (SQL queries, the geodesic distance library, the
geolocation and reputation HTTP APIs, the wall clock) are modelled as explicit
inputs.  Machine floats are modelled by exact rationals; timestamps by
rationals (seconds) or integers (clock ticks).
-/

namespace Passkeys

/-! ## Shared data model -/

/-- A resolved geolocation, as built by `RiskEngine._get_location_from_ip`
(risk_engine.py lines 294-351): a dict with keys
`country`, `country_name`, `city`, `display`. -/
structure Location where
  country : String
  country_name : String
  city : String
  display : String
deriving DecidableEq, Repr

/-- A Python value as it can appear for the `location` key of a context or as
the `required_location` entry of a policy's JSON `conditions` blob: `None`, a
string, or a location dict.  Python `==` between values of different shapes is
`False`, which is exactly structural equality on this type. -/
inductive PyVal where
  | pyNone : PyVal
  | pyStr : String → PyVal
  | pyDict : Location → PyVal
deriving DecidableEq, Repr

/-! ## Policy engine (backend/risk/policies.py) -/

/-- The JSON `conditions` blob of a `Policy` row.  `none` means the key is
absent from the dict (`'k' in conditions` is false). -/
structure Conditions where
  min_risk_score : Option ℚ
  max_risk_score : Option ℚ
  allowed_countries : Option (List String)
  blocked_countries : Option (List String)
  required_location : Option PyVal
  allowed_devices : Option (List String)
  business_hours_only : Option Bool
deriving DecidableEq, Repr

/-- A `Policy` table row (models.py lines 75-84). -/
structure Policy where
  name : String
  description : String
  conditions : Conditions
  action : String
  priority : Int
  enabled : Bool
deriving DecidableEq, Repr

/-- The context dict handed to `evaluate_policies` by the login flow
(app.py lines 416-420): it is `risk_assessment['context']`, whose `location`
key always holds a location dict and which always carries `device_type` and
`is_business_hours` (risk_engine.py lines 94-104). -/
structure PolicyContext where
  location : Location
  device_type : String
  is_business_hours : Bool
deriving DecidableEq, Repr

/-- The decision dict returned by `evaluate_policies`. -/
structure Decision where
  action : String
  policy_name : String
  policy_description : String
  matched : Bool
deriving DecidableEq, Repr

/-- The `min_risk_score` check (policies.py lines 100-105): fail iff `risk_score < min`. -/
def minScoreOk (c : Conditions) (s : ℚ) : Bool :=
  c.min_risk_score.all (fun m => decide (m ≤ s))

/-- The `max_risk_score` check (policies.py lines 108-113): fail iff `risk_score > max`. -/
def maxScoreOk (c : Conditions) (s : ℚ) : Bool :=
  c.max_risk_score.all (fun m => decide (s ≤ m))

/-- The `allowed_countries` check (policies.py lines 116-124): membership of
`context['location']['country']` in the list. -/
def allowedCountriesOk (c : Conditions) (ctx : PolicyContext) : Bool :=
  c.allowed_countries.all (fun cs => cs.contains ctx.location.country)

/-- The `blocked_countries` check (policies.py lines 127-135). -/
def blockedCountriesOk (c : Conditions) (ctx : PolicyContext) : Bool :=
  c.blocked_countries.all (fun cs => !(cs.contains ctx.location.country))

/-- The `required_location` check (policies.py lines 137-144): the code compares
`context.get('location')` — the whole location value, a dict in every caller —
against the condition value with Python `!=`.  It does NOT project the
`display` string. -/
def requiredLocationOk (c : Conditions) (ctx : PolicyContext) : Bool :=
  c.required_location.all (fun r => PyVal.pyDict ctx.location == r)

/-- The `allowed_devices` check (policies.py lines 146-153). -/
def allowedDevicesOk (c : Conditions) (ctx : PolicyContext) : Bool :=
  c.allowed_devices.all (fun ds => ds.contains ctx.device_type)

/-- The `business_hours_only` check (policies.py lines 155-161): only enforced when
the key is present and truthy. -/
def businessHoursOk (c : Conditions) (ctx : PolicyContext) : Bool :=
  c.business_hours_only.all (fun b => !b || ctx.is_business_hours)

/-- Embedding of `PolicyEngine._policy_matches` (policies.py lines 89-164): every declared
condition must hold; absent conditions are vacuous. -/
def policyMatches (p : Policy) (s : ℚ) (ctx : PolicyContext) : Bool :=
  minScoreOk p.conditions s && maxScoreOk p.conditions s &&
  allowedCountriesOk p.conditions ctx && blockedCountriesOk p.conditions ctx &&
  requiredLocationOk p.conditions ctx && allowedDevicesOk p.conditions ctx &&
  businessHoursOk p.conditions ctx

/-- The empty conditions blob. -/
def noConditions : Conditions := ⟨none, none, none, none, none, none, none⟩

/-- The three seeded default policies (`PolicyEngine.default_policies`,
policies.py lines 11-33, inserted with `enabled=True` by
`_create_default_policies`, lines 166-185). -/
def default_policies : List Policy :=
  [ ⟨"high_risk_deny", "Denegar acceso si el riesgo es alto",
      ⟨some 75, none, none, none, none, none, none⟩, "deny", 1, true⟩,
    ⟨"medium_risk_stepup", "Requerir autenticación adicional para riesgo medio",
      ⟨some 40, some 74, none, none, none, none, none⟩, "stepup", 2, true⟩,
    ⟨"low_risk_allow", "Permitir acceso si el riesgo es bajo",
      ⟨none, some 39, none, none, none, none, none⟩, "allow", 3, true⟩ ]

/-- Ordering used by the query `ORDER BY priority ASC`. -/
def polLe (p q : Policy) : Prop := p.priority ≤ q.priority

instance : DecidableRel polLe := fun p q => inferInstanceAs (Decidable (p.priority ≤ q.priority))

instance : IsTotal Policy polLe := ⟨fun p q => Int.le_total p.priority q.priority⟩

instance : IsTrans Policy polLe := ⟨fun _ _ _ h h' => le_trans h h'⟩

/-- First-match-wins scan of the policy loop (policies.py lines 60-78). -/
def firstMatch (s : ℚ) (ctx : PolicyContext) : List Policy → Option Policy
  | [] => none
  | p :: ps => if policyMatches p s ctx then some p else firstMatch s ctx ps

/-- The decision returned when no policy matches (policies.py lines 82-87). -/
def defaultDecision : Decision := ⟨"allow", "default", "Política por defecto", false⟩

/-- The list produced by the query at policies.py lines 48-50:
`filter(Policy.enabled == True).order_by(Policy.priority.asc())`, applied to the
table in its storage iteration order (a stable sort models `ORDER BY`). -/
def sortedEnabled (stored : List Policy) : List Policy :=
  List.insertionSort polLe (stored.filter (fun p => p.enabled))

/-- Embedding of `PolicyEngine.evaluate_policies` (policies.py lines 35-87).  `stored` is the
`Policy` table in its storage iteration order.  If no enabled policy exists the
three defaults are seeded and used (lines 54-56).  The first policy all of
whose conditions hold wins; otherwise the default `allow` decision is
returned. -/
def evaluate_policies (stored : List Policy) (s : ℚ) (ctx : PolicyContext) : Decision :=
  let policies := if (sortedEnabled stored).isEmpty then default_policies
                  else sortedEnabled stored
  match firstMatch s ctx policies with
  | some p => ⟨p.action, p.name, p.description, true⟩
  | none => defaultDecision

/-! ## Risk engine (backend/risk/risk_engine.py) -/

/-- The database facts and clock readings consumed by `RiskEngine.evaluate_risk`
(risk_engine.py lines 25-72) for one authentication attempt:

* `knownDevice` — whether the fingerprint built at line 114 is found in the
  `Device` table (lines 119-121);
* `knownLocations` — the distinct non-null `last_seen_location` strings of the
  user's devices (lines 155-160);
* `currentDisplay` — the `display` string of the resolved current location
  (line 150);
* `recentFailures` — `auth_failed` events in the trailing hour (lines 230-234);
* `recentAttempts` — auth events in the trailing 5 minutes (lines 259-263);
* `weekday` — `timestamp.weekday()`, 0 = Monday … 6 = Sunday;
* `secondsOfDay` — the time of day of the timestamp, in seconds. -/
structure RiskInputs where
  knownDevice : Bool
  knownLocations : List String
  currentDisplay : String
  recentFailures : Nat
  recentAttempts : Nat
  weekday : Nat
  secondsOfDay : Nat
deriving DecidableEq, Repr

/-- Embedding of `_evaluate_device_risk` score (risk_engine.py lines 106-136):
known fingerprint 0, unknown 40. -/
def device_score (known : Bool) : Int := if known then 0 else 40

/-- Embedding of `_evaluate_location_risk` score (risk_engine.py lines 138-191): no known
locations 20, current display among them 0, otherwise 35. -/
def location_score (known : List String) (currentDisplay : String) : Int :=
  if known.isEmpty then 20
  else if known.contains currentDisplay then 0
  else 35

/-- The `business_hours_start <= t <= business_hours_end` with the bounds 8:00 and
18:00 set at risk_engine.py lines 22-23. -/
def in_business_hours (secondsOfDay : Nat) : Bool :=
  8 * 3600 ≤ secondsOfDay && secondsOfDay ≤ 18 * 3600

/-- Embedding of `_evaluate_time_risk` score (risk_engine.py lines 193-221): business hours
on a weekday 0, weekday off-hours 15, weekend 25. -/
def time_score (weekday secondsOfDay : Nat) : Int :=
  if in_business_hours secondsOfDay && weekday < 5 then 0
  else if weekday < 5 then 15
  else 25

/-- Embedding of `_evaluate_failed_attempts` score (risk_engine.py lines 223-250):
0 failures 0, 1-2 failures 20, more 50. -/
def failed_attempts_score (n : Nat) : Int :=
  if n = 0 then 0 else if n ≤ 2 then 20 else 50

/-- Embedding of `_evaluate_velocity_risk` score (risk_engine.py lines 252-282):
at most 2 attempts 0, 3-5 attempts 25, more 50. -/
def velocity_score (n : Nat) : Int :=
  if n ≤ 2 then 0 else if n ≤ 5 then 25 else 50

/-- The weight table of `RiskEngine.__init__` (risk_engine.py lines 14-20). -/
def risk_weights : List (String × ℚ) :=
  [("device", 0.30), ("location", 0.25), ("time", 0.20),
   ("failed_attempts", 0.15), ("velocity", 0.10)]

/-- The five factor scores of one evaluation, in the order of the `factors`
dict (risk_engine.py lines 40-46). -/
def factor_scores (i : RiskInputs) : List (String × Int) :=
  [("device", device_score i.knownDevice),
   ("location", location_score i.knownLocations i.currentDisplay),
   ("time", time_score i.weekday i.secondsOfDay),
   ("failed_attempts", failed_attempts_score i.recentFailures),
   ("velocity", velocity_score i.recentAttempts)]

/-- The `total_score = sum(factors[f]['score'] * weights[f])`
(risk_engine.py lines 55-58). -/
def total_score (i : RiskInputs) : ℚ :=
  (device_score i.knownDevice : ℚ) * 0.30 +
  (location_score i.knownLocations i.currentDisplay : ℚ) * 0.25 +
  (time_score i.weekday i.secondsOfDay : ℚ) * 0.20 +
  (failed_attempts_score i.recentFailures : ℚ) * 0.15 +
  (velocity_score i.recentAttempts : ℚ) * 0.10

/-- Embedding of `_calculate_risk_level` (risk_engine.py lines 284-292). -/
def risk_level (s : ℚ) : String :=
  if s < 40 then "low" else if s < 75 then "medium" else "high"

/-- The `round(x, 2)` applied to the exact value (risk_engine.py line 68 rounds the
float total to two decimals before wrapping it in a `Decimal`).  Every total
this engine produces has `100 * x` integral, so the tie-breaking convention of
Python's `round` is immaterial; half-up is used here. -/
def round2 (x : ℚ) : ℚ := (⌊x * 100 + 1 / 2⌋ : ℚ) / 100

/-- The assessment dict returned by `evaluate_risk` (risk_engine.py
lines 67-72). -/
structure RiskAssessment where
  score : ℚ
  level : String
  factors : List (String × Int)
deriving DecidableEq, Repr

/-- Embedding of `RiskEngine.evaluate_risk` (risk_engine.py lines 25-72), with the database
queries and the clock abstracted into `RiskInputs`. -/
def evaluate_risk (i : RiskInputs) : RiskAssessment :=
  ⟨round2 (total_score i), risk_level (total_score i), factor_scores i⟩


/-! ## Session reevaluation (backend/session_reevaluation.py) -/

/-- A stored location string: either of the parseable form `"lat,lon"` or any
other string (on which `detect_location_anomaly`'s coordinate parsing raises
and is caught). -/
inductive LocStr where
  | coords : ℚ → ℚ → LocStr
  | other : String → LocStr
deriving DecidableEq, Repr

/-- Python truthiness of an optional location string: `None` and `""` are
falsy. -/
def locTruthy : Option LocStr → Bool
  | none => false
  | some (LocStr.coords _ _) => true
  | some (LocStr.other s) => s ≠ ""

/-- Embedding of `tuple(map(float, s.split(',')))` (session_reevaluation.py line 122-123):
succeeds exactly on `"lat,lon"` strings. -/
def parseCoords : Option LocStr → Option (ℚ × ℚ)
  | some (LocStr.coords lat lon) => some (lat, lon)
  | _ => none

/-- Python truthiness of an optional string. -/
def optStrTruthy : Option String → Bool
  | none => false
  | some s => s ≠ ""

/-- The anomaly descriptions appended by `reevaluate_session`
(session_reevaluation.py lines 277-304), tagged by kind. -/
inductive Anomaly where
  | impossibleTravel : ℚ → Anomaly
  | significantLocationChange : ℚ → Anomaly
  | userAgentChanged : Anomaly
  | ipChanged : String → String → Anomaly
  | unusualHour : Nat → Anomaly
  | highFrequency : Anomaly
  | sensitiveResources : Anomaly
deriving DecidableEq, Repr

/-- A `Session` table row (models.py lines 59-71).  Timestamps are rationals
(seconds). -/
structure SessionRow where
  id : String
  user_id : String
  risk_score : ℚ
  ip_address : String
  user_agent : String
  location : Option LocStr
  device_id : Option String
  created_at : ℚ
  expires_at : ℚ
  revoked : Bool
deriving DecidableEq, Repr

/-- The `additional_context` dict of a reevaluation request, holding the keys
read by `detect_behavioral_anomalies` (session_reevaluation.py lines 186-201);
`none` fields model absent keys, and the `.get` defaults 10 and 0 are applied
where the code applies them. -/
structure BehavioralCtx where
  typical_hours : Option (List Nat)
  access_count : Option Nat
  avg_access_count : Option Nat
  has_accessed_resources : Bool
  sensitive_resource_access : Nat
deriving DecidableEq, Repr

/-- Embedding of `SessionContextUpdate` (session_reevaluation.py lines 61-67). -/
structure SessionContextUpdate where
  session_id : String
  ip_address : Option String
  user_agent : Option String
  location : Option LocStr
  additional_context : Option BehavioralCtx
deriving DecidableEq, Repr

/-- Embedding of `detect_location_anomaly` (session_reevaluation.py lines 107-145).
`distF` abstracts `geopy.distance.geodesic(...).kilometers`; `now` abstracts
`datetime.now()`.  Elapsed time is measured from `session.created_at` in
hours.  Impossible travel (implied speed above 800 km/h, checked only for a
positive elapsed time) takes precedence over the 100 km drift threshold. -/
def detect_location_anomaly (sessionLoc : Option LocStr) (created : ℚ)
    (newLoc : Option LocStr) (now : ℚ) (distF : ℚ → ℚ → ℚ → ℚ → ℚ) :
    Bool × ℚ × Option Anomaly :=
  if !locTruthy newLoc || !locTruthy sessionLoc then (false, 0, none)
  else
    match parseCoords sessionLoc, parseCoords newLoc with
    | some (olat, olon), some (nlat, nlon) =>
      let d := distF olat olon nlat nlon
      let tdiff := (now - created) / 3600
      if 0 < tdiff ∧ 800 < d / tdiff then
        (true, d, some (Anomaly.impossibleTravel (d / tdiff)))
      else if 100 < d then (true, d, some (Anomaly.significantLocationChange d))
      else (false, d, none)
    | _, _ => (false, 0, none)

/-- Embedding of `detect_device_anomaly` (session_reevaluation.py lines 148-172): flags a
user-agent change when the update carries a non-empty user agent that differs
from a non-empty stored one. -/
def detect_device_anomaly (sessionUA : String) (newUA : Option String) : Bool :=
  match newUA with
  | none => false
  | some nu => if nu = "" then false else decide (sessionUA ≠ "" ∧ nu ≠ sessionUA)

/-- Embedding of `detect_behavioral_anomalies` (session_reevaluation.py lines 175-203). -/
def detect_behavioral_anomalies (c : BehavioralCtx) (currentHour : Nat) :
    List Anomaly :=
  (match c.typical_hours with
   | some hs => if hs.contains currentHour then [] else [Anomaly.unusualHour currentHour]
   | none => []) ++
  (match c.access_count with
   | some n =>
     if (c.avg_access_count.getD 10) * 3 < n then [Anomaly.highFrequency] else []
   | none => []) ++
  (if c.has_accessed_resources && decide (5 < c.sensitive_resource_access) then
     [Anomaly.sensitiveResources]
   else [])

/-- Embedding of `determine_action` (session_reevaluation.py lines 221-243), with
`CHANGE_THRESHOLDS['max_risk_increase'] = 30` (line 53). -/
def determine_action (risk_change : ℚ) (anomalies : List Anomaly)
    (current_risk : ℚ) : String :=
  if 90 ≤ current_risk ∨ 3 ≤ anomalies.length then "revoke"
  else if 70 ≤ current_risk ∨ 30 < risk_change then "stepup"
  else if 40 ≤ current_risk ∨ 0 < anomalies.length then "monitor"
  else "none"

/-- The anomaly list accumulated by `reevaluate_session` before the risk
recomputation (session_reevaluation.py lines 277-304): location anomaly,
device anomaly, IP change, then behavioural anomalies. -/
def collect_anomalies (s : SessionRow) (u : SessionContextUpdate) (now : ℚ)
    (currentHour : Nat) (distF : ℚ → ℚ → ℚ → ℚ → ℚ) : List Anomaly :=
  (if locTruthy u.location then
     match detect_location_anomaly s.location s.created_at u.location now distF with
     | (true, _, some a) => [a]
     | _ => []
   else []) ++
  (if optStrTruthy u.user_agent then
     (if detect_device_anomaly s.user_agent u.user_agent then
        [Anomaly.userAgentChanged]
      else [])
   else []) ++
  (match u.ip_address with
   | some ip =>
     if ip ≠ "" ∧ ip ≠ s.ip_address then [Anomaly.ipChanged s.ip_address ip] else []
   | none => []) ++
  (match u.additional_context with
   | some c => detect_behavioral_anomalies c currentHour
   | none => [])

/-- Number of parameters, `self` excluded and none with a default, of
`RiskEngine.evaluate_risk` (risk_engine.py lines 25-31:
`user, ip_address, user_agent, db`). -/
def evaluate_risk_param_count : Nat := 4

/-- Number of positional arguments supplied at the call
`risk_engine.evaluate_risk(context)` (session_reevaluation.py line 319). -/
def evaluate_risk_arg_count : Nat := 1

/-- Embedding of `ReevaluationResult` (session_reevaluation.py lines 70-79). -/
structure ReevalResult where
  session_id : String
  previous_risk_score : ℚ
  current_risk_score : ℚ
  risk_change : ℚ
  anomalies_detected : List Anomaly
  action_required : String
  confidence : String
deriving DecidableEq, Repr

/-- Outcome of one call of the `/reevaluate` endpoint: either an
`HTTPException` or a `ReevaluationResult`. -/
inductive ReevalOutcome where
  | httpError : Nat → String → ReevalOutcome
  | ok : ReevalResult → ReevalOutcome
deriving DecidableEq, Repr

/-- Embedding of `reevaluate_session` (session_reevaluation.py lines 250-387) over a session
store in table order.  The query at lines 264-267 selects the session by id
with `revoked == False`; a missing or revoked session yields HTTP 404
(line 270), an expired one HTTP 401 (line 274).  On the live path the anomaly
list is collected (lines 277-304) and then the code calls
`risk_engine.evaluate_risk(context)` with a single positional argument
(line 319) although the method requires four, so Python raises `TypeError`
before any session mutation and the broad handler at lines 385-387 turns it
into HTTP 500.  The `ok` branch below is unreachable (its placeholder values
are never produced); no path mutates the store. -/
def reevaluate_session (store : List SessionRow) (u : SessionContextUpdate)
    (now : ℚ) (currentHour : Nat) (distF : ℚ → ℚ → ℚ → ℚ → ℚ) :
    ReevalOutcome × List SessionRow :=
  match store.find? (fun s => s.id == u.session_id && !s.revoked) with
  | none => (ReevalOutcome.httpError 404 "Sesión no encontrada o revocada", store)
  | some s =>
    if s.expires_at < now then (ReevalOutcome.httpError 401 "Sesión expirada", store)
    else
      let anomalies := collect_anomalies s u now currentHour distF
      if evaluate_risk_arg_count = evaluate_risk_param_count then
        (ReevalOutcome.ok
          ⟨u.session_id, s.risk_score, s.risk_score, 0, anomalies, "none", "low"⟩,
         store)
      else
        (ReevalOutcome.httpError 500
          "Error en reevaluación: evaluate_risk() missing 3 required positional arguments",
         store)

/-! ## Threat intelligence (backend/threat_intelligence.py) -/

/-- One entry of the `sources` list of a threat response
(threat_intelligence.py lines 317-328): a name, a score and a count
(`reports` for AbuseIPDB, `suspicious_events` for the local blacklist). -/
structure SourceEntry where
  source_name : String
  score : Int
  count : Nat
deriving DecidableEq, Repr

/-- The fields of a `check_abuseipdb` result that `check_threat` consumes
(threat_intelligence.py lines 96-154); the external call is abstracted into
this input.  The keyless mock and the error fallback both carry score 0 and
0 reports. -/
structure AbuseData where
  abuseConfidenceScore : Int
  totalReports : Nat
deriving DecidableEq, Repr

/-- The 30-day audit-event counts consumed by `check_local_blacklist`
(threat_intelligence.py lines 157-190). -/
structure LocalCounts where
  suspicious_events : Nat
  successful_events : Nat
deriving DecidableEq, Repr

/-- Embedding of `check_local_blacklist`'s `local_threat_score`
(threat_intelligence.py lines 177-183): `int((suspicious/total)*100)`,
i.e. the floor of the abuse ratio scaled to 0-100, and 0 with no events. -/
def local_threat_score (c : LocalCounts) : Nat :=
  if c.suspicious_events + c.successful_events = 0 then 0
  else c.suspicious_events * 100 / (c.suspicious_events + c.successful_events)

/-- The `additional_context` keys read by `detect_threat_indicators`
(threat_intelligence.py lines 214-227), with the `.get` defaults applied. -/
structure ThreatCtx where
  failed_attempts : Nat
  location_change_distance : ℚ
  is_tor : Bool
  is_vpn : Bool
deriving DecidableEq, Repr

/-- The `THREAT_INDICATORS['user_agents']` (threat_intelligence.py lines 40-43). -/
def threat_tool_agents : List String :=
  ["sqlmap", "nikto", "nmap", "masscan", "metasploit",
   "burp", "dirbuster", "acunetix", "nessus"]

/-- The `THREAT_INDICATORS['suspicious_patterns']`
(threat_intelligence.py lines 44-47). -/
def threat_suspicious_patterns : List String :=
  ["admin", "root", "test", "backup", "phpMyAdmin",
   "../", "..\\", "<script", "union select", "drop table"]

/-- Python's `pattern in s` substring test. -/
def strContains (s pat : String) : Bool := (s.splitOn pat).length != 1

/-- The `detect_threat_indicators` (threat_intelligence.py lines 193-229). -/
def detect_threat_indicators (ua : Option String) (ctx : Option ThreatCtx) :
    List String :=
  (match ua with
   | some u =>
     if u = "" then []
     else
       let ul := u.toLower
       (threat_tool_agents.filter (fun t => strContains ul t)).map
         (fun t => "Scanning tool detected: " ++ t) ++
       (threat_suspicious_patterns.filter (fun t => strContains ul t)).map
         (fun t => "Suspicious pattern: " ++ t)
   | none => []) ++
  (match ctx with
   | some c =>
     (if 5 < c.failed_attempts then ["Multiple failed authentication attempts"]
      else []) ++
     (if 1000 < c.location_change_distance then ["Impossible travel detected"]
      else []) ++
     (if c.is_tor || c.is_vpn then ["Anonymization service detected"] else [])
   | none => [])

/-- The consolidated score of `calculate_threat_score`
(threat_intelligence.py lines 232-243):
`int(0.5*abuse + 0.3*local + 0.2*min(20*indicators, 100))`. -/
def calculate_threat_score (ab : AbuseData) (localScore : Nat)
    (indicators : List String) : Int :=
  ⌊(ab.abuseConfidenceScore : ℚ) * 0.5 + (localScore : ℚ) * 0.3 +
    ((min (indicators.length * 20) 100 : Nat) : ℚ) * 0.2⌋

/-- The confidence level of `calculate_threat_score`
(threat_intelligence.py lines 245-259): `high` with at least two of
{external reports, local suspicious events, indicators} present, `medium`
with exactly one, else `low`. -/
def threat_confidence (ab : AbuseData) (loc : LocalCounts)
    (indicators : List String) : String :=
  let cnt := (if 0 < ab.totalReports then 1 else 0) +
             (if 0 < loc.suspicious_events then 1 else 0) +
             (if 0 < indicators.length then 1 else 0)
  if 2 ≤ cnt then "high" else if cnt = 1 then "medium" else "low"

/-- The recommendation string (threat_intelligence.py lines 330-338). -/
def threat_recommendation (score : Int) : String :=
  if 90 ≤ score then "BLOCK: Alto riesgo de amenaza detectado"
  else if 70 ≤ score then "CHALLENGE: Requiere autenticación adicional (step-up)"
  else if 40 ≤ score then "MONITOR: Monitorear actividad de cerca"
  else "ALLOW: Riesgo bajo, permitir acceso"

/-- An entry of `IP_REPUTATION_CACHE` (threat_intelligence.py lines 36,
341-349): the cached response fields plus the creation timestamp. -/
structure CacheEntry where
  is_malicious : Bool
  threat_score : Int
  confidence : String
  sources : List SourceEntry
  indicators : List String
  recommendation : String
  timestamp : Int
deriving DecidableEq, Repr

/-- A `ThreatIntelligenceResponse` (threat_intelligence.py lines 62-71);
`checked_at` is a clock reading. -/
structure ThreatResponse where
  ip_address : String
  is_malicious : Bool
  threat_score : Int
  confidence : String
  sources : List SourceEntry
  indicators : List String
  recommendation : String
  checked_at : Int
deriving DecidableEq, Repr

/-- The `ThreatCheckRequest` (threat_intelligence.py lines 55-58). -/
structure ThreatRequest where
  ip_address : String
  user_agent : Option String
  additional_context : Option ThreatCtx
deriving DecidableEq, Repr

/-- The module state of threat_intelligence.py: the in-memory
`IP_REPUTATION_CACHE` dict (as an association list, newest binding first) and
an abstract clock.  Each `datetime.now()` reading observable in a result is
modelled as a tick that advances the clock by one, so readings taken later in
an execution are strictly larger. -/
structure ThreatState where
  cache : List (String × CacheEntry)
  clock : Int
deriving DecidableEq, Repr

/-- The `CACHE_DURATION` (threat_intelligence.py line 37): one hour. -/
def cache_duration : Int := 3600

/-- Embedding of `check_ip_in_cache` (threat_intelligence.py lines 91-97): a hit iff the IP
has an entry younger than the TTL at time `t`. -/
def check_ip_in_cache (cache : List (String × CacheEntry)) (ip : String)
    (t : Int) : Option CacheEntry :=
  match List.lookup ip cache with
  | some e => if t - e.timestamp < cache_duration then some e else none
  | none => none

/-- The result of one `check_threat` call: the response, the module state
afterwards, and whether an external reputation call (`check_abuseipdb`) was
made. -/
structure CheckOutcome where
  resp : ThreatResponse
  state : ThreatState
  externalCall : Bool
deriving DecidableEq, Repr

/-- The `/check` endpoint `check_threat` (threat_intelligence.py
lines 268-371).  On a valid cache hit (lines 281-295) the response is built
entirely from the cached entry — `checked_at` is
`datetime.fromtimestamp(cached['timestamp'])` — and no external source is
consulted.  Otherwise the external reputation data `ab` and the local audit
counts `loc` are consumed, the consolidated score, confidence and
recommendation are computed, the entry is stored in the cache with a fresh
timestamp (lines 341-350), and the response carries a strictly later
`checked_at` reading (line 361). -/
def check_threat (st : ThreatState) (req : ThreatRequest) (ab : AbuseData)
    (loc : LocalCounts) : CheckOutcome :=
  match check_ip_in_cache st.cache req.ip_address st.clock with
  | some e =>
    ⟨⟨req.ip_address, e.is_malicious, e.threat_score, e.confidence, e.sources,
      e.indicators, e.recommendation, e.timestamp⟩,
     ⟨st.cache, st.clock + 1⟩, false⟩
  | none =>
    let indicators := detect_threat_indicators req.user_agent req.additional_context
    let lscore := local_threat_score loc
    let score := calculate_threat_score ab lscore indicators
    let conf := threat_confidence ab loc indicators
    let is_mal := decide (70 ≤ score)
    let sources : List SourceEntry :=
      [⟨"AbuseIPDB", ab.abuseConfidenceScore, ab.totalReports⟩,
       ⟨"Local Blacklist", (lscore : Int), loc.suspicious_events⟩]
    let reco := threat_recommendation score
    let entry : CacheEntry := ⟨is_mal, score, conf, sources, indicators, reco, st.clock⟩
    let cache2 := (req.ip_address, entry) ::
      st.cache.filter (fun kv => kv.fst != req.ip_address)
    ⟨⟨req.ip_address, is_mal, score, conf, sources, indicators, reco, st.clock + 1⟩,
     ⟨cache2, st.clock + 2⟩, true⟩

/-! ## Concrete fixtures used in closed instances -/

/-- A Buenos Aires location dict. -/
def locBA : Location := ⟨"AR", "Argentina", "Buenos Aires", "Buenos Aires, Argentina"⟩

/-- A login context located at `locBA` on a desktop during business hours. -/
def ctxBA : PolicyContext := ⟨locBA, "desktop", true⟩

/-- An always-matching `allow` policy with priority 1. -/
def tieAllow : Policy :=
  ⟨"tie_allow", "first of two equal-priority policies", noConditions, "allow", 1, true⟩

/-- An always-matching `deny` policy, also priority 1. -/
def tieDeny : Policy :=
  ⟨"tie_deny", "second of two equal-priority policies", noConditions, "deny", 1, true⟩

/-- An allow-below-39 policy with priority 3. -/
def lowAllow : Policy :=
  ⟨"low_allow", "allow low risk",
    ⟨none, some 39, none, none, none, none, none⟩, "allow", 3, true⟩

/-- A policy whose only condition is a `required_location` string equal to
`locBA`'s display string. -/
def reqLocPolicy : Policy :=
  ⟨"hq_only", "requires the HQ display location",
    ⟨none, none, none, none, some (PyVal.pyStr "Buenos Aires, Argentina"), none, none⟩,
    "allow", 1, true⟩

/-- A deny-above-75 policy. -/
def denyHigh : Policy :=
  ⟨"deny_high", "deny high risk",
    ⟨some 75, none, none, none, none, none, none⟩, "deny", 1, true⟩

/-- A revoked session row. -/
def revokedSession : SessionRow :=
  ⟨"s1", "u1", 50, "10.0.0.1", "UA-1", some (LocStr.coords 0 0), none, 0, 10000, true⟩

/-- A live (non-revoked, unexpired at time 100) session row. -/
def liveSession : SessionRow :=
  ⟨"s2", "u1", 50, "10.0.0.1", "UA-1", some (LocStr.coords 0 0), none, 0, 10000, false⟩

/-- A context update carrying only a session id. -/
def emptyUpdate (sid : String) : SessionContextUpdate := ⟨sid, none, none, none, none⟩

/-- A degenerate distance function. -/
def zeroDist : ℚ → ℚ → ℚ → ℚ → ℚ := fun _ _ _ _ => 0

/-- A constant 900 km distance function. -/
def dist900 : ℚ → ℚ → ℚ → ℚ → ℚ := fun _ _ _ _ => 900

/-- A context update moving `liveSession` to new coordinates. -/
def updLoc : SessionContextUpdate :=
  ⟨"s2", none, none, some (LocStr.coords 10 10), none⟩

/-- The keyless AbuseIPDB mock (score 0, no reports). -/
def mockAbuse : AbuseData := ⟨0, 0⟩

/-- No local audit events. -/
def noLocal : LocalCounts := ⟨0, 0⟩

/-- A minimal threat check request. -/
def sampleThreatReq : ThreatRequest := ⟨"203.0.113.9", none, none⟩

/-- The threat module's state at startup: empty cache, clock 0. -/
def emptyThreatState : ThreatState := ⟨[], 0⟩

/-- Scenario C inputs: unknown device, new non-first location, Wednesday
20:00 (weekday off-hours), no failures, no velocity. -/
def scenarioC : RiskInputs := ⟨false, ["Paris, France"], "Buenos Aires, Argentina", 0, 0, 2, 72000⟩

/-! ## Theorems -/

/-! ### Policy engine: `firstMatch` and `evaluate_policies` -/

theorem firstMatch_mem {s : ℚ} {ctx : PolicyContext} :
    ∀ {l : List Policy} {p : Policy}, firstMatch s ctx l = some p →
      p ∈ l ∧ policyMatches p s ctx = true := by
  intro l
  induction l with
  | nil => intro p h; simp [firstMatch] at h
  | cons q l ih =>
    intro p h
    by_cases hq : policyMatches q s ctx = true
    · simp [firstMatch, hq] at h
      subst h
      exact ⟨List.mem_cons_self _ _, hq⟩
    · simp [firstMatch, hq] at h
      rcases ih h with ⟨hmem, hm⟩
      exact ⟨List.mem_cons_of_mem _ hmem, hm⟩

theorem firstMatch_eq_none {s : ℚ} {ctx : PolicyContext} :
    ∀ {l : List Policy}, firstMatch s ctx l = none ↔
      ∀ p ∈ l, policyMatches p s ctx = false := by
  intro l
  induction l with
  | nil => simp [firstMatch]
  | cons q l ih =>
    by_cases hq : policyMatches q s ctx = true
    · simp [firstMatch, hq]
    · have hq' : policyMatches q s ctx = false := Bool.eq_false_iff.mpr hq
      constructor
      · intro h p hp
        rcases List.mem_cons.mp hp with rfl | hpl
        · exact hq'
        · simp only [firstMatch, hq', if_false] at h
          exact ih.mp h p hpl
      · intro h
        simp only [firstMatch, hq', if_false]
        exact ih.mpr (fun p hp => h p (List.mem_cons_of_mem _ hp))

theorem firstMatch_min_of_sorted {s : ℚ} {ctx : PolicyContext} :
    ∀ {l : List Policy} {p : Policy}, l.Sorted polLe →
      firstMatch s ctx l = some p →
      ∀ q ∈ l, policyMatches q s ctx = true → p.priority ≤ q.priority := by
  intro l
  induction l with
  | nil => intro p _ h; simp [firstMatch] at h
  | cons a l ih =>
    intro p hs h q hq hmq
    by_cases ha : policyMatches a s ctx = true
    · simp [firstMatch, ha] at h
      subst h
      rcases List.mem_cons.mp hq with rfl | hql
      · exact le_refl _
      · exact (List.sorted_cons.mp hs).1 q hql
    · simp [firstMatch, ha] at h
      rcases List.mem_cons.mp hq with rfl | hql
      · exact absurd hmq ha
      · exact ih (List.sorted_cons.mp hs).2 h q hql hmq

theorem mem_sortedEnabled {stored : List Policy} {p : Policy} :
    p ∈ sortedEnabled stored ↔ p ∈ stored ∧ p.enabled = true := by
  unfold sortedEnabled
  rw [(List.perm_insertionSort polLe (stored.filter (fun p => p.enabled))).mem_iff,
    List.mem_filter]

theorem sortedEnabled_isEmpty_false {stored : List Policy} {p : Policy}
    (hp : p ∈ stored) (he : p.enabled = true) :
    (sortedEnabled stored).isEmpty = false := by
  have hmem : p ∈ sortedEnabled stored := mem_sortedEnabled.mpr ⟨hp, he⟩
  cases h : (sortedEnabled stored).isEmpty
  · rfl
  · rw [List.isEmpty_iff] at h
    rw [h] at hmem
    exact absurd hmem (List.not_mem_nil p)

theorem evaluate_policies_no_match (stored : List Policy) (s : ℚ) (ctx : PolicyContext)
    (hne : ∃ p ∈ stored, p.enabled = true)
    (hnm : ∀ p ∈ stored, p.enabled = true → policyMatches p s ctx = false) :
    evaluate_policies stored s ctx = defaultDecision := by
  obtain ⟨p0, hp0, he0⟩ := hne
  have hempty : (sortedEnabled stored).isEmpty = false :=
    sortedEnabled_isEmpty_false hp0 he0
  have hfm : firstMatch s ctx (sortedEnabled stored) = none :=
    firstMatch_eq_none.mpr (fun p hp => by
      rcases mem_sortedEnabled.mp hp with ⟨hps, hpe⟩
      exact hnm p hps hpe)
  unfold evaluate_policies
  rw [hempty]
  simp only [Bool.false_eq_true, if_false, hfm]

theorem evaluate_policies_match (stored : List Policy) (s : ℚ) (ctx : PolicyContext)
    (hm : ∃ p ∈ stored, p.enabled = true ∧ policyMatches p s ctx = true) :
    ∃ w ∈ stored, w.enabled = true ∧ policyMatches w s ctx = true ∧
      evaluate_policies stored s ctx = ⟨w.action, w.name, w.description, true⟩ ∧
      ∀ q ∈ stored, q.enabled = true → policyMatches q s ctx = true →
        w.priority ≤ q.priority := by
  obtain ⟨p0, hp0, he0, hm0⟩ := hm
  have hmem : p0 ∈ sortedEnabled stored := mem_sortedEnabled.mpr ⟨hp0, he0⟩
  have hempty : (sortedEnabled stored).isEmpty = false :=
    sortedEnabled_isEmpty_false hp0 he0
  cases hfm : firstMatch s ctx (sortedEnabled stored) with
  | none =>
    have := firstMatch_eq_none.mp hfm p0 hmem
    rw [hm0] at this
    exact absurd this (by simp)
  | some w =>
    obtain ⟨hwmem, hwm⟩ := firstMatch_mem hfm
    obtain ⟨hws, hwe⟩ := mem_sortedEnabled.mp hwmem
    refine ⟨w, hws, hwe, hwm, ?_, ?_⟩
    · unfold evaluate_policies
      rw [hempty]
      simp only [Bool.false_eq_true, if_false, hfm]
    · intro q hq hqe hqm
      exact firstMatch_min_of_sorted
        (List.sorted_insertionSort polLe (stored.filter (fun p => p.enabled)))
        hfm q (mem_sortedEnabled.mpr ⟨hq, hqe⟩) hqm

theorem evaluate_policies_perm_eq (stored stored2 : List Policy) (s : ℚ)
    (ctx : PolicyContext) (hperm : stored.Perm stored2)
    (hdist : ∀ p ∈ stored, ∀ q ∈ stored, p.enabled = true → q.enabled = true →
      p.priority = q.priority → p = q) :
    evaluate_policies stored s ctx = evaluate_policies stored2 s ctx := by
  by_cases hm : ∃ p ∈ stored, p.enabled = true ∧ policyMatches p s ctx = true
  · obtain ⟨w1, h1s, h1e, h1m, h1eval, h1min⟩ := evaluate_policies_match stored s ctx hm
    have hm2 : ∃ p ∈ stored2, p.enabled = true ∧ policyMatches p s ctx = true := by
      obtain ⟨p0, hp0, he0, hm0⟩ := hm
      exact ⟨p0, hperm.subset hp0, he0, hm0⟩
    obtain ⟨w2, h2s, h2e, h2m, h2eval, h2min⟩ := evaluate_policies_match stored2 s ctx hm2
    have h2s' : w2 ∈ stored := hperm.symm.subset h2s
    have hle : w1.priority ≤ w2.priority := h1min w2 h2s' h2e h2m
    have hge : w2.priority ≤ w1.priority := h2min w1 (hperm.subset h1s) h1e h1m
    have hw : w1 = w2 := hdist w1 h1s w2 h2s' h1e h2e (le_antisymm hle hge)
    rw [h1eval, h2eval, hw]
  · by_cases hne : ∃ p ∈ stored, p.enabled = true
    · have hnm : ∀ p ∈ stored, p.enabled = true → policyMatches p s ctx = false := by
        intro p hp hpe
        cases hc : policyMatches p s ctx
        · rfl
        · exact absurd ⟨p, hp, hpe, hc⟩ hm
      have hne2 : ∃ p ∈ stored2, p.enabled = true := by
        obtain ⟨p0, hp0, he0⟩ := hne
        exact ⟨p0, hperm.subset hp0, he0⟩
      have hnm2 : ∀ p ∈ stored2, p.enabled = true → policyMatches p s ctx = false :=
        fun p hp hpe => hnm p (hperm.symm.subset hp) hpe
      rw [evaluate_policies_no_match stored s ctx hne hnm,
        evaluate_policies_no_match stored2 s ctx hne2 hnm2]
    · have h1 : sortedEnabled stored = [] := by
        rw [List.eq_nil_iff_forall_not_mem]
        intro p hp
        rcases mem_sortedEnabled.mp hp with ⟨hps, hpe⟩
        exact hne ⟨p, hps, hpe⟩
      have h2 : sortedEnabled stored2 = [] := by
        rw [List.eq_nil_iff_forall_not_mem]
        intro p hp
        rcases mem_sortedEnabled.mp hp with ⟨hps, hpe⟩
        exact hne ⟨p, hperm.symm.subset hps, hpe⟩
      unfold evaluate_policies
      rw [h1, h2]

/-! ### Claim theorems: policy engine -/

/-- C1 (counterexample): two enabled, always-matching policies that share
priority 1 form one policy set whose two storage orders produce different
decisions, refuting storage-order independence as claimed. -/
theorem evaluate_policies_depends_on_storage_order_on_priority_tie :
    [tieAllow, tieDeny].Perm [tieDeny, tieAllow] ∧
    evaluate_policies [tieAllow, tieDeny] 0 ctxBA ≠
      evaluate_policies [tieDeny, tieAllow] 0 ctxBA := by
  constructor
  · exact List.Perm.swap tieDeny tieAllow []
  · decide

/-- C1 (amended): `evaluate_policies` considers only enabled policies in
ascending priority order — whenever some enabled stored policy matches, the
decision carries the action and name of a matching enabled stored policy of
minimal priority among all matches — and, provided no two enabled policies of
the set share a priority number, the same decision is returned regardless of
the storage iteration order; with a priority tie among matching enabled
policies the stable sort falls back to storage order. -/
theorem evaluate_policies_priority_ordered_deterministic
    (stored stored2 : List Policy) (s : ℚ) (ctx : PolicyContext)
    (hperm : stored.Perm stored2)
    (hdist : ∀ p ∈ stored, ∀ q ∈ stored, p.enabled = true → q.enabled = true →
      p.priority = q.priority → p = q) :
    evaluate_policies stored s ctx = evaluate_policies stored2 s ctx ∧
    ((∃ p ∈ stored, p.enabled = true ∧ policyMatches p s ctx = true) →
      ∃ w ∈ stored, w.enabled = true ∧ policyMatches w s ctx = true ∧
        evaluate_policies stored s ctx = ⟨w.action, w.name, w.description, true⟩ ∧
        ∀ q ∈ stored, q.enabled = true → policyMatches q s ctx = true →
          w.priority ≤ q.priority) :=
  ⟨evaluate_policies_perm_eq stored stored2 s ctx hperm hdist,
   fun hm => evaluate_policies_match stored s ctx hm⟩

/-- C1 (witness): the amended theorem applied to the two storage orders of a
two-policy set with distinct priorities 1 and 3. -/
theorem evaluate_policies_priority_ordered_deterministic_witness :
    evaluate_policies [denyHigh, lowAllow] 10 ctxBA =
      evaluate_policies [lowAllow, denyHigh] 10 ctxBA :=
  (evaluate_policies_priority_ordered_deterministic [denyHigh, lowAllow]
    [lowAllow, denyHigh] 10 ctxBA (List.Perm.swap lowAllow denyHigh [])
    (by decide)).1

/-- C2: with a non-empty enabled policy set of which no policy matches,
`evaluate_policies` — a total function, so no exception can escape — returns
the decision `allow` / `default` / unmatched. -/
theorem no_matching_policy_defaults_to_allow
    (stored : List Policy) (s : ℚ) (ctx : PolicyContext)
    (hne : ∃ p ∈ stored, p.enabled = true)
    (hnm : ∀ p ∈ stored, p.enabled = true → policyMatches p s ctx = false) :
    evaluate_policies stored s ctx =
      ⟨"allow", "default", "Política por defecto", false⟩ :=
  evaluate_policies_no_match stored s ctx hne hnm

/-- C2 (witness): a single enabled deny-above-75 policy never matches score 10,
so the default allow decision is returned. -/
theorem no_matching_policy_defaults_to_allow_witness :
    evaluate_policies [denyHigh] 10 ctxBA =
      ⟨"allow", "default", "Política por defecto", false⟩ :=
  no_matching_policy_defaults_to_allow [denyHigh] 10 ctxBA (by decide) (by decide)

/-- C8 (counterexample): a policy requiring the string
"Buenos Aires, Argentina" does not match a context whose display location is
exactly that string, because the code compares the required value against the
whole location dict. -/
theorem required_location_ignores_display_string :
    reqLocPolicy.conditions.required_location =
      some (PyVal.pyStr "Buenos Aires, Argentina") ∧
    ctxBA.location.display = "Buenos Aires, Argentina" ∧
    requiredLocationOk reqLocPolicy.conditions ctxBA = false ∧
    policyMatches reqLocPolicy 0 ctxBA = false := by
  decide

/-- C8 (amended): the `required_location` predicate holds iff the required
value equals — as a Python value — the context's entire location object; in
particular a string requirement never matches the dict-valued context
location, even when the string equals the location's display string. -/
theorem required_location_compares_whole_location_value
    (c : Conditions) (ctx : PolicyContext) (r : PyVal)
    (hr : c.required_location = some r) :
    (requiredLocationOk c ctx = true ↔ PyVal.pyDict ctx.location = r) ∧
    ∀ t : String, r = PyVal.pyStr t → requiredLocationOk c ctx = false := by
  unfold requiredLocationOk
  rw [hr]
  constructor
  · simp
  · intro t ht
    subst ht
    simp

/-- C8 (witness): the amended theorem applied to `reqLocPolicy` and `ctxBA`. -/
theorem required_location_compares_whole_location_value_witness :
    (requiredLocationOk reqLocPolicy.conditions ctxBA = true ↔
      PyVal.pyDict ctxBA.location = PyVal.pyStr "Buenos Aires, Argentina") ∧
    ∀ t : String, PyVal.pyStr "Buenos Aires, Argentina" = PyVal.pyStr t →
      requiredLocationOk reqLocPolicy.conditions ctxBA = false :=
  required_location_compares_whole_location_value reqLocPolicy.conditions ctxBA
    (PyVal.pyStr "Buenos Aires, Argentina") rfl

/-! ### Risk engine lemmas -/

theorem device_score_bounds (b : Bool) :
    0 ≤ device_score b ∧ device_score b ≤ 40 := by
  cases b <;> simp [device_score]

theorem location_score_bounds (l : List String) (c : String) :
    0 ≤ location_score l c ∧ location_score l c ≤ 35 := by
  unfold location_score
  split_ifs <;> norm_num

theorem time_score_bounds (w t : Nat) :
    0 ≤ time_score w t ∧ time_score w t ≤ 25 := by
  unfold time_score
  split_ifs <;> norm_num

theorem failed_attempts_score_bounds (n : Nat) :
    0 ≤ failed_attempts_score n ∧ failed_attempts_score n ≤ 50 := by
  unfold failed_attempts_score
  split_ifs <;> norm_num

theorem velocity_score_bounds (n : Nat) :
    0 ≤ velocity_score n ∧ velocity_score n ≤ 50 := by
  unfold velocity_score
  split_ifs <;> norm_num

theorem round2_int_div (n : Int) : round2 ((n : ℚ) / 100) = (n : ℚ) / 100 := by
  unfold round2
  have h : (n : ℚ) / 100 * 100 = (n : ℚ) := by
    field_simp
  rw [h]
  have h2 : ⌊(n : ℚ) + 1 / 2⌋ = n := by
    rw [add_comm, Int.floor_add_int]
    norm_num
  rw [h2]

theorem total_score_eq_div (i : RiskInputs) :
    total_score i =
      ((device_score i.knownDevice * 30 +
        location_score i.knownLocations i.currentDisplay * 25 +
        time_score i.weekday i.secondsOfDay * 20 +
        failed_attempts_score i.recentFailures * 15 +
        velocity_score i.recentAttempts * 10 : Int) : ℚ) / 100 := by
  unfold total_score
  push_cast
  ring

theorem evaluate_risk_score_eq_total (i : RiskInputs) :
    (evaluate_risk i).score = total_score i := by
  show round2 (total_score i) = total_score i
  rw [total_score_eq_div i, round2_int_div]

theorem total_score_bounds (i : RiskInputs) :
    0 ≤ total_score i ∧ total_score i ≤ 38.25 := by
  have hd : (0 : ℚ) ≤ (device_score i.knownDevice : ℚ) ∧
      (device_score i.knownDevice : ℚ) ≤ 40 := by
    exact_mod_cast device_score_bounds i.knownDevice
  have hl : (0 : ℚ) ≤ (location_score i.knownLocations i.currentDisplay : ℚ) ∧
      (location_score i.knownLocations i.currentDisplay : ℚ) ≤ 35 := by
    exact_mod_cast location_score_bounds i.knownLocations i.currentDisplay
  have ht : (0 : ℚ) ≤ (time_score i.weekday i.secondsOfDay : ℚ) ∧
      (time_score i.weekday i.secondsOfDay : ℚ) ≤ 25 := by
    exact_mod_cast time_score_bounds i.weekday i.secondsOfDay
  have hf : (0 : ℚ) ≤ (failed_attempts_score i.recentFailures : ℚ) ∧
      (failed_attempts_score i.recentFailures : ℚ) ≤ 50 := by
    exact_mod_cast failed_attempts_score_bounds i.recentFailures
  have hv : (0 : ℚ) ≤ (velocity_score i.recentAttempts : ℚ) ∧
      (velocity_score i.recentAttempts : ℚ) ≤ 50 := by
    exact_mod_cast velocity_score_bounds i.recentAttempts
  unfold total_score
  constructor
  · nlinarith [hd.1, hl.1, ht.1, hf.1, hv.1]
  · nlinarith [hd.2, hl.2, ht.2, hf.2, hv.2, hd.1, hl.1, ht.1, hf.1, hv.1]

theorem risk_level_low_of_lt40 {s : ℚ} (h : s < 40) : risk_level s = "low" := by
  unfold risk_level
  rw [if_pos h]

/-! ### Claim theorems: risk engine -/

/-- C3: the five weights sum to 1; for every input the returned total equals
the weighted sum of the five factor scores (the two-decimal rounding is exact
on every value this engine produces) and lies in [0, 100]; and on Scenario C
inputs — unknown device (40), new non-first location (35), weekday off-hours
(15), no recent failures, no velocity — the total is 23.75 and the level is
`low`. -/
theorem risk_score_weighted_sum_bounds_and_scenarioC
    (i j : RiskInputs)
    (h1 : j.knownDevice = false) (h2 : j.knownLocations.isEmpty = false)
    (h3 : j.knownLocations.contains j.currentDisplay = false)
    (h4 : j.weekday < 5) (h5 : in_business_hours j.secondsOfDay = false)
    (h6 : j.recentFailures = 0) (h7 : j.recentAttempts ≤ 2) :
    (risk_weights.map Prod.snd).sum = 1 ∧
    (evaluate_risk i).score =
      (device_score i.knownDevice : ℚ) * 0.30 +
      (location_score i.knownLocations i.currentDisplay : ℚ) * 0.25 +
      (time_score i.weekday i.secondsOfDay : ℚ) * 0.20 +
      (failed_attempts_score i.recentFailures : ℚ) * 0.15 +
      (velocity_score i.recentAttempts : ℚ) * 0.10 ∧
    0 ≤ (evaluate_risk i).score ∧ (evaluate_risk i).score ≤ 100 ∧
    (evaluate_risk j).score = 23.75 ∧ (evaluate_risk j).level = "low" := by
  have htj : total_score j = 23.75 := by
    unfold total_score device_score location_score time_score
      failed_attempts_score velocity_score
    rw [h1, h2, h3, h5, h6]
    simp [h4, h7]
    norm_num
  have hbi := total_score_bounds i
  refine ⟨by norm_num [risk_weights], ?_, ?_, ?_, ?_, ?_⟩
  · rw [evaluate_risk_score_eq_total i]; rfl
  · rw [evaluate_risk_score_eq_total i]; exact hbi.1
  · rw [evaluate_risk_score_eq_total i]
    have : (38.25 : ℚ) ≤ 100 := by norm_num
    linarith [hbi.2]
  · rw [evaluate_risk_score_eq_total j, htj]
  · show risk_level (total_score j) = "low"
    rw [htj]
    exact risk_level_low_of_lt40 (by norm_num)

/-- C3 (witness): the theorem applied at the Scenario C fixture. -/
theorem risk_score_weighted_sum_bounds_and_scenarioC_witness :
    (evaluate_risk scenarioC).score = 23.75 ∧
    (evaluate_risk scenarioC).level = "low" := by
  have h := risk_score_weighted_sum_bounds_and_scenarioC scenarioC scenarioC
    rfl rfl (by decide) (by decide) (by decide) rfl (by decide)
  exact ⟨h.2.2.2.2.1, h.2.2.2.2.2⟩

/-- C10: every total this scorer can produce is at most 38.25 (the weighted
sum of the per-factor maxima 40, 35, 25, 50, 50), so the reported level is
always `low` and any policy declaring `min_risk_score ≥ 40` can never match an
assessment score produced by this engine. -/
theorem risk_score_capped_below_40
    (i : RiskInputs) (p : Policy) (ctx : PolicyContext) (m : ℚ)
    (hm : p.conditions.min_risk_score = some m) (h40 : 40 ≤ m) :
    (evaluate_risk i).score ≤ 38.25 ∧ (evaluate_risk i).level = "low" ∧
    policyMatches p ((evaluate_risk i).score) ctx = false := by
  have hsc : (evaluate_risk i).score = total_score i := evaluate_risk_score_eq_total i
  have hb := total_score_bounds i
  refine ⟨?_, ?_, ?_⟩
  · rw [hsc]; exact hb.2
  · show risk_level (total_score i) = "low"
    exact risk_level_low_of_lt40 (lt_of_le_of_lt hb.2 (by norm_num))
  · unfold policyMatches minScoreOk
    rw [hm]
    have hnot : ¬ (m ≤ (evaluate_risk i).score) := by
      rw [hsc]
      intro hh
      have := hb.2
      have : (40 : ℚ) ≤ 38.25 := le_trans h40 (le_trans hh hb.2)
      norm_num at this
    simp [Option.all, hnot]

/-- C10 (witness): the cap theorem applied at the Scenario C fixture against a
deny-at-75 policy. -/
theorem risk_score_capped_below_40_witness :
    (evaluate_risk scenarioC).score ≤ 38.25 ∧
    (evaluate_risk scenarioC).level = "low" ∧
    policyMatches denyHigh ((evaluate_risk scenarioC).score) ctxBA = false :=
  risk_score_capped_below_40 scenarioC denyHigh ctxBA 75 rfl (by norm_num)

/-! ### Claim theorems: session reevaluation -/

/-- C4: `determine_action` returns `revoke` iff the new score is at least 90
or at least 3 anomalies were detected; otherwise `stepup` iff the score is at
least 70 or the delta exceeds 30; otherwise `monitor` iff the score is at
least 40 or some anomaly was detected; otherwise `none`.  In particular a
score of 92 with one anomaly yields `revoke`. -/
theorem determine_action_thresholds (d : ℚ) (an : List Anomaly) (s : ℚ) :
    (determine_action d an s = "revoke" ↔ (90 ≤ s ∨ 3 ≤ an.length)) ∧
    (determine_action d an s = "stepup" ↔
      (¬(90 ≤ s ∨ 3 ≤ an.length) ∧ (70 ≤ s ∨ 30 < d))) ∧
    (determine_action d an s = "monitor" ↔
      (¬(90 ≤ s ∨ 3 ≤ an.length) ∧ ¬(70 ≤ s ∨ 30 < d) ∧
        (40 ≤ s ∨ 0 < an.length))) ∧
    (determine_action d an s = "none" ↔
      (¬(90 ≤ s ∨ 3 ≤ an.length) ∧ ¬(70 ≤ s ∨ 30 < d) ∧
        ¬(40 ≤ s ∨ 0 < an.length))) ∧
    (s = 92 → an.length = 1 → determine_action d an s = "revoke") := by
  have hscen : s = 92 → (90 ≤ s ∨ 3 ≤ an.length) := by
    intro hs
    left
    rw [hs]
    norm_num
  unfold determine_action
  split_ifs with h1 h2 h3
  · exact ⟨by simp [h1], by simp [h1], by simp [h1], by simp [h1], fun _ _ => rfl⟩
  · exact ⟨by simp [h1], by simp [h1, h2], by simp [h2], by simp [h2],
      fun hs _ => absurd (hscen hs) h1⟩
  · exact ⟨by simp [h1], by simp [h2], by simp [h1, h2, h3], by simp [h3],
      fun hs _ => absurd (hscen hs) h1⟩
  · exact ⟨by simp [h1], by simp [h2], by simp [h3], by simp [h1, h2, h3],
      fun hs _ => absurd (hscen hs) h1⟩

/-- C4 (witness): the thresholds theorem applied at Scenario D — new score 92,
one anomaly. -/
theorem determine_action_thresholds_witness :
    determine_action 0 [Anomaly.userAgentChanged] 92 = "revoke" :=
  (determine_action_thresholds 0 [Anomaly.userAgentChanged] 92).2.2.2.2 rfl rfl

/-- C5 (counterexample): reevaluating an already-revoked session does not
return a terminal no-op result — the endpoint raises HTTP 404
("Sesión no encontrada o revocada"). -/
theorem reevaluate_revoked_session_returns_http_error :
    revokedSession.revoked = true ∧
    reevaluate_session [revokedSession] (emptyUpdate "s1") 100 12 zeroDist =
      (ReevalOutcome.httpError 404 "Sesión no encontrada o revocada",
       [revokedSession]) := by
  decide

/-- C5 (amended): reevaluation never mutates the session store — in
particular `revoked = true` is never reset; reevaluating a session id that is
absent or held only by revoked sessions deterministically raises HTTP 404, and
repeating the call returns the identical error; a found live-but-expired
session raises HTTP 401.  These terminal states are reported as HTTP errors,
not as no-op result objects. -/
theorem reevaluate_terminal_sessions_error_without_mutation
    (store : List SessionRow) (u : SessionContextUpdate) (now : ℚ)
    (hour : Nat) (distF : ℚ → ℚ → ℚ → ℚ → ℚ)
    (h404 : ∀ s ∈ store, s.id = u.session_id → s.revoked = true) :
    (∀ (st : List SessionRow) (u' : SessionContextUpdate) (now' : ℚ)
       (hour' : Nat) (distF' : ℚ → ℚ → ℚ → ℚ → ℚ),
      (reevaluate_session st u' now' hour' distF').2 = st) ∧
    reevaluate_session store u now hour distF =
      (ReevalOutcome.httpError 404 "Sesión no encontrada o revocada", store) ∧
    reevaluate_session
        (reevaluate_session store u now hour distF).2 u now hour distF =
      (ReevalOutcome.httpError 404 "Sesión no encontrada o revocada", store) ∧
    (∀ (st : List SessionRow) (u' : SessionContextUpdate) (now' : ℚ)
       (hour' : Nat) (distF' : ℚ → ℚ → ℚ → ℚ → ℚ) (s : SessionRow),
      st.find? (fun r => r.id == u'.session_id && !r.revoked) = some s →
      s.expires_at < now' →
      reevaluate_session st u' now' hour' distF' =
        (ReevalOutcome.httpError 401 "Sesión expirada", st)) := by
  have hpres : ∀ (st : List SessionRow) (u' : SessionContextUpdate) (now' : ℚ)
      (hour' : Nat) (distF' : ℚ → ℚ → ℚ → ℚ → ℚ),
      (reevaluate_session st u' now' hour' distF').2 = st := by
    intro st u' now' hour' distF'
    unfold reevaluate_session
    cases h : st.find? (fun s => s.id == u'.session_id && !s.revoked) with
    | none => rfl
    | some s =>
      simp only []
      split_ifs <;> rfl
  have hfind : store.find? (fun s => s.id == u.session_id && !s.revoked) = none := by
    rw [List.find?_eq_none]
    intro s hs
    by_cases hid : s.id = u.session_id
    · have hrev := h404 s hs hid
      simp [hid, hrev]
    · simp [hid]
  have h404res : reevaluate_session store u now hour distF =
      (ReevalOutcome.httpError 404 "Sesión no encontrada o revocada", store) := by
    unfold reevaluate_session
    rw [hfind]
  refine ⟨hpres, h404res, ?_, ?_⟩
  · rw [hpres store u now hour distF, h404res]
  · intro st u' now' hour' distF' s hf he
    unfold reevaluate_session
    rw [hf]
    simp only [if_pos he]

/-- C5 (witness): the amended theorem applied to a store holding one revoked
session targeted by the update. -/
theorem reevaluate_terminal_sessions_error_without_mutation_witness :
    reevaluate_session [revokedSession] (emptyUpdate "s1") 200 12 zeroDist =
      (ReevalOutcome.httpError 404 "Sesión no encontrada o revocada",
       [revokedSession]) :=
  (reevaluate_terminal_sessions_error_without_mutation [revokedSession]
    (emptyUpdate "s1") 200 12 zeroDist (by decide)).2.1

/-- C6 (code bug): for every live session — found by id, not revoked, not
expired — `reevaluate_session` returns HTTP 500: the call
`risk_engine.evaluate_risk(context)` at session_reevaluation.py line 319 binds
one positional argument to a method whose signature requires four
(risk_engine.py lines 25-31), so the risk recomputation raises `TypeError`,
aborts the reevaluation, and no recomputed score or result object is ever
produced for any live session. -/
theorem reevaluate_live_session_always_http_500
    (store : List SessionRow) (u : SessionContextUpdate) (now : ℚ)
    (hour : Nat) (distF : ℚ → ℚ → ℚ → ℚ → ℚ) (s : SessionRow)
    (hfind : store.find? (fun r => r.id == u.session_id && !r.revoked) = some s)
    (hexp : ¬ s.expires_at < now) :
    reevaluate_session store u now hour distF =
      (ReevalOutcome.httpError 500
        "Error en reevaluación: evaluate_risk() missing 3 required positional arguments",
       store) := by
  unfold reevaluate_session
  rw [hfind]
  simp only [if_neg hexp]
  rfl

/-- C6 (witness): the HTTP 500 theorem applied to a live, unexpired session. -/
theorem reevaluate_live_session_always_http_500_witness :
    reevaluate_session [liveSession] (emptyUpdate "s2") 100 12 zeroDist =
      (ReevalOutcome.httpError 500
        "Error en reevaluación: evaluate_risk() missing 3 required positional arguments",
       [liveSession]) :=
  reevaluate_live_session_always_http_500 [liveSession] (emptyUpdate "s2") 100 12
    zeroDist liveSession (by decide) (by norm_num [liveSession])

/-- C7: when both the stored and the updated location are known coordinate
pairs and the elapsed time since session creation is positive, an implied
speed above 800 km/h puts the impossible-travel anomaly in the reevaluation's
anomaly list; and a distance above 100 km that was not flagged as impossible
travel is reported as a significant location change instead. -/
theorem geovelocity_and_drift_anomalies_reported
    (s : SessionRow) (u : SessionContextUpdate) (now : ℚ) (hour : Nat)
    (distF : ℚ → ℚ → ℚ → ℚ → ℚ) (olat olon nlat nlon : ℚ)
    (hold : s.location = some (LocStr.coords olat olon))
    (hnew : u.location = some (LocStr.coords nlat nlon))
    (hpos : 0 < (now - s.created_at) / 3600) :
    (800 < distF olat olon nlat nlon / ((now - s.created_at) / 3600) →
      Anomaly.impossibleTravel
          (distF olat olon nlat nlon / ((now - s.created_at) / 3600)) ∈
        collect_anomalies s u now hour distF) ∧
    (¬ 800 < distF olat olon nlat nlon / ((now - s.created_at) / 3600) →
      100 < distF olat olon nlat nlon →
      Anomaly.significantLocationChange (distF olat olon nlat nlon) ∈
        collect_anomalies s u now hour distF) := by
  constructor
  · intro hvel
    have hdet : detect_location_anomaly s.location s.created_at u.location now distF =
        (true, distF olat olon nlat nlon,
         some (Anomaly.impossibleTravel
           (distF olat olon nlat nlon / ((now - s.created_at) / 3600)))) := by
      unfold detect_location_anomaly
      rw [hold, hnew]
      simp only [locTruthy, parseCoords, Bool.not_true, Bool.or_self,
        Bool.false_eq_true, if_false]
      rw [if_pos ⟨hpos, hvel⟩]
    unfold collect_anomalies
    rw [hdet, hnew]
    simp only [locTruthy, if_true]
    exact List.mem_append_left _ (List.mem_append_left _
      (List.mem_append_left _ (List.mem_singleton_self _)))
  · intro hvel hdist
    have hdet : detect_location_anomaly s.location s.created_at u.location now distF =
        (true, distF olat olon nlat nlon,
         some (Anomaly.significantLocationChange (distF olat olon nlat nlon))) := by
      unfold detect_location_anomaly
      rw [hold, hnew]
      simp only [locTruthy, parseCoords, Bool.not_true, Bool.or_self,
        Bool.false_eq_true, if_false]
      rw [if_neg (fun hc => hvel hc.2), if_pos hdist]
    unfold collect_anomalies
    rw [hdet, hnew]
    simp only [locTruthy, if_true]
    exact List.mem_append_left _ (List.mem_append_left _
      (List.mem_append_left _ (List.mem_singleton_self _)))

/-- C7 (witness): the geovelocity theorem applied to a session created at
time 0 with coordinates (0,0), updated one hour later to (10,10) at a distance
of 900 km — an implied 900 km/h. -/
theorem geovelocity_and_drift_anomalies_reported_witness :
    Anomaly.impossibleTravel
        (dist900 0 0 10 10 / ((3600 - liveSession.created_at) / 3600)) ∈
      collect_anomalies liveSession updLoc 3600 12 dist900 :=
  (geovelocity_and_drift_anomalies_reported liveSession updLoc 3600 12 dist900
    0 0 10 10 rfl rfl (by norm_num [liveSession])).1
    (by norm_num [dist900, liveSession])

/-! ### Threat intelligence lemmas and claim theorems -/

theorem check_threat_fresh (st : ThreatState) (req : ThreatRequest)
    (ab : AbuseData) (loc : LocalCounts)
    (hmiss : List.lookup req.ip_address st.cache = none) :
    check_threat st req ab loc =
      ⟨⟨req.ip_address,
        decide (70 ≤ calculate_threat_score ab (local_threat_score loc)
          (detect_threat_indicators req.user_agent req.additional_context)),
        calculate_threat_score ab (local_threat_score loc)
          (detect_threat_indicators req.user_agent req.additional_context),
        threat_confidence ab loc
          (detect_threat_indicators req.user_agent req.additional_context),
        [⟨"AbuseIPDB", ab.abuseConfidenceScore, ab.totalReports⟩,
         ⟨"Local Blacklist", (local_threat_score loc : Int), loc.suspicious_events⟩],
        detect_threat_indicators req.user_agent req.additional_context,
        threat_recommendation (calculate_threat_score ab (local_threat_score loc)
          (detect_threat_indicators req.user_agent req.additional_context)),
        st.clock + 1⟩,
       ⟨(req.ip_address,
          ⟨decide (70 ≤ calculate_threat_score ab (local_threat_score loc)
             (detect_threat_indicators req.user_agent req.additional_context)),
           calculate_threat_score ab (local_threat_score loc)
             (detect_threat_indicators req.user_agent req.additional_context),
           threat_confidence ab loc
             (detect_threat_indicators req.user_agent req.additional_context),
           [⟨"AbuseIPDB", ab.abuseConfidenceScore, ab.totalReports⟩,
            ⟨"Local Blacklist", (local_threat_score loc : Int),
             loc.suspicious_events⟩],
           detect_threat_indicators req.user_agent req.additional_context,
           threat_recommendation (calculate_threat_score ab (local_threat_score loc)
             (detect_threat_indicators req.user_agent req.additional_context)),
           st.clock⟩) ::
          st.cache.filter (fun kv => kv.fst != req.ip_address),
        st.clock + 2⟩,
       true⟩ := by
  have hc : check_ip_in_cache st.cache req.ip_address st.clock = none := by
    unfold check_ip_in_cache
    rw [hmiss]
  unfold check_threat
  rw [hc]


theorem check_threat_cache_hit (st : ThreatState) (req : ThreatRequest)
    (ab : AbuseData) (loc : LocalCounts) (e : CacheEntry)
    (hhit : List.lookup req.ip_address st.cache = some e)
    (hfresh : st.clock - e.timestamp < cache_duration) :
    check_threat st req ab loc =
      ⟨⟨req.ip_address, e.is_malicious, e.threat_score, e.confidence, e.sources,
        e.indicators, e.recommendation, e.timestamp⟩,
       ⟨st.cache, st.clock + 1⟩, false⟩ := by
  have hc : check_ip_in_cache st.cache req.ip_address st.clock = some e := by
    unfold check_ip_in_cache
    rw [hhit]
    exact if_pos hfresh
  unfold check_threat
  rw [hc]

theorem check_threat_pair_spec
    (st : ThreatState) (req : ThreatRequest) (ab ab2 : AbuseData)
    (loc loc2 : LocalCounts) (c2 : Int) (o1 o2 : CheckOutcome)
    (hmiss : List.lookup req.ip_address st.cache = none)
    (hc2 : c2 - st.clock < 3600)
    (h1 : o1 = check_threat st req ab loc)
    (h2 : o2 = check_threat ⟨o1.state.cache, c2⟩ req ab2 loc2) :
    o1.externalCall = true ∧ o2.externalCall = false ∧
    o2.state.cache = o1.state.cache ∧
    o2.resp.ip_address = o1.resp.ip_address ∧
    o2.resp.is_malicious = o1.resp.is_malicious ∧
    o2.resp.threat_score = o1.resp.threat_score ∧
    o2.resp.confidence = o1.resp.confidence ∧
    o2.resp.sources = o1.resp.sources ∧
    o2.resp.indicators = o1.resp.indicators ∧
    o2.resp.recommendation = o1.resp.recommendation ∧
    o2.resp.checked_at < o1.resp.checked_at := by
  rw [check_threat_fresh st req ab loc hmiss] at h1
  subst h1
  dsimp only at h2
  subst h2
  simp only [check_threat, check_ip_in_cache, List.lookup, beq_self_eq_true,
    cache_duration, hc2, if_true, if_pos]
  refine ⟨trivial, trivial, trivial, trivial, trivial, trivial, trivial, trivial,
    trivial, trivial, ?_⟩
  exact lt_add_one st.clock

/-- C9 (counterexample): a fresh check followed by a cached check of the same
IP within the TTL — the second call makes no external call, yet the two
responses are not byte-identical: their `checked_at` fields differ. -/
theorem check_threat_responses_differ_in_checked_at :
    (check_threat (check_threat emptyThreatState sampleThreatReq mockAbuse noLocal).state
        sampleThreatReq mockAbuse noLocal).externalCall = false ∧
    (check_threat (check_threat emptyThreatState sampleThreatReq mockAbuse noLocal).state
        sampleThreatReq mockAbuse noLocal).resp ≠
      (check_threat emptyThreatState sampleThreatReq mockAbuse noLocal).resp := by
  obtain ⟨-, hext, -, -, -, -, -, -, -, -, hlt⟩ :=
    check_threat_pair_spec emptyThreatState sampleThreatReq mockAbuse mockAbuse
      noLocal noLocal
      (check_threat emptyThreatState sampleThreatReq mockAbuse noLocal).state.clock
      (check_threat emptyThreatState sampleThreatReq mockAbuse noLocal)
      (check_threat (check_threat emptyThreatState sampleThreatReq mockAbuse noLocal).state
        sampleThreatReq mockAbuse noLocal)
      rfl
      (by rw [check_threat_fresh emptyThreatState sampleThreatReq mockAbuse noLocal rfl]
          norm_num [emptyThreatState])
      rfl rfl
  exact ⟨hext, fun heq => absurd hlt (by rw [heq]; exact lt_irrefl _)⟩

/-- C9 (amended): when the first call for an IP misses the cache, it performs
the external lookup and caches its result; a second call for the same IP made
while the entry is younger than the one-hour TTL (after any `k` further clock
ticks with `k + 2 < 3600`) is served entirely from the cache: it makes no
external call, ignores the reputation and audit inputs it was given, leaves
the cache unchanged, and agrees with the first response on every field except
`checked_at` — the cached response reports the cache entry's creation time,
which strictly precedes the first response's `checked_at` reading. -/
theorem check_threat_second_call_cached_no_external
    (st : ThreatState) (req : ThreatRequest) (ab ab2 : AbuseData)
    (loc loc2 : LocalCounts) (k : Nat) (o1 o2 : CheckOutcome)
    (hmiss : List.lookup req.ip_address st.cache = none)
    (hk : (k : Int) + 2 < 3600)
    (h1 : o1 = check_threat st req ab loc)
    (h2 : o2 = check_threat ⟨o1.state.cache, o1.state.clock + (k : Int)⟩ req ab2 loc2) :
    o1.externalCall = true ∧ o2.externalCall = false ∧
    o2.state.cache = o1.state.cache ∧
    o2.resp.ip_address = o1.resp.ip_address ∧
    o2.resp.is_malicious = o1.resp.is_malicious ∧
    o2.resp.threat_score = o1.resp.threat_score ∧
    o2.resp.confidence = o1.resp.confidence ∧
    o2.resp.sources = o1.resp.sources ∧
    o2.resp.indicators = o1.resp.indicators ∧
    o2.resp.recommendation = o1.resp.recommendation ∧
    o2.resp.checked_at < o1.resp.checked_at := by
  refine check_threat_pair_spec st req ab ab2 loc loc2
    (o1.state.clock + (k : Int)) o1 o2 hmiss ?_ h1 h2
  have hclock : o1.state.clock = st.clock + 2 := by
    rw [h1, check_threat_fresh st req ab loc hmiss]
  rw [hclock]
  omega

/-- C9 (witness): the amended theorem applied to the startup state and a
minimal request, with no delay between the two calls. -/
theorem check_threat_second_call_cached_no_external_witness :
    (check_threat
        ⟨(check_threat emptyThreatState sampleThreatReq mockAbuse noLocal).state.cache,
         (check_threat emptyThreatState sampleThreatReq mockAbuse noLocal).state.clock +
           ((0 : Nat) : Int)⟩
        sampleThreatReq mockAbuse noLocal).externalCall = false :=
  (check_threat_second_call_cached_no_external emptyThreatState sampleThreatReq
    mockAbuse mockAbuse noLocal noLocal 0 _ _ rfl (by decide) rfl rfl).2.1
end Passkeys
